import Mathlib

/-!
# Verification of the EDON governance connector credential/token core

Shallow embedding of the credential resolution and OAuth token lifecycle
logic of the repository's connectors:

* `src/connectors/home_assistant_connector.py` — `_load_credentials`,
  `_save_tokens`, `_refresh_access_token`, `_auth_header`, `list_entities`;
* `src/connectors/fmp_connector.py` — `_load_credentials`, `quote`,
  `stock_news`;
* `src/connectors/newsapi_connector.py` — `_load_credentials`, `search`,
  `top_headlines`;
* `src/connectors/gemini_connector.py` — `generate_image`.

Outbound HTTP is modelled by passing the response (or a network-failure
marker) as an explicit argument; an operation that would issue a request
returns a `request` constructor carrying exactly the data the code puts on
the wire.  Python exceptions that escape a function are modelled by
`Except`: `.error` is a raised, uncaught exception.
-/

namespace Governance

/-! ## Python string semantics -/

/-- Python whitespace characters relevant to `str.strip()`. -/
def isPySpace (c : Char) : Bool :=
  c = ' ' || c = '\t' || c = '\n' || c = '\r' || c = '\x0b' || c = '\x0c'

/-- Python `str.strip()`: drop leading and trailing whitespace. -/
def pyStrip (s : String) : String :=
  String.mk (((s.data.dropWhile isPySpace).reverse.dropWhile isPySpace).reverse)

/-- Python `str.rstrip("/")`: drop trailing slash characters. -/
def pyRstripSlash (s : String) : String :=
  String.mk ((s.data.reverse.dropWhile (fun c => c = '/')).reverse)

/-- Python `str.upper()` (ASCII portion, which is all the code feeds it). -/
def pyUpper (s : String) : String :=
  String.mk (s.data.map Char.toUpper)

/-- Truthiness of an optional string (`None` and `""` are falsy). -/
def pyTruthy : Option String → Bool
  | some s => s ≠ ""
  | none => false

/-- Python `a or b` over two optional strings, as in
`data.get("api_key") or data.get("key") or ""`. -/
def pyFirstTruthy (a b : Option String) : String :=
  match a with
  | some s => if s = "" then b.getD "" else s
  | none => b.getD ""

/-- Digits of a decimal literal, as accepted by Python `int(str)`. -/
def digitsToNat (l : List Char) : Option Nat :=
  match l with
  | [] => none
  | _ =>
    l.foldl
      (fun acc c =>
        acc.bind fun n => if c.isDigit then some (n * 10 + (c.toNat - 48)) else none)
      (some 0)

/-- Python `int(str)` on the strings the code can meet: optional sign and
decimal digits after stripping whitespace; anything else raises
`ValueError` (modelled as `none`). -/
def pyToInt (s : String) : Option Int :=
  match (pyStrip s).data with
  | [] => none
  | '-' :: rest => (digitsToNat rest).map (fun n => -(n : Int))
  | l => (digitsToNat l).map (fun n => (n : Int))

/-! ## Token endpoint wire model -/

/-- A JSON scalar as it can appear in the `expires_in` field of a token
response (an integer, or a string the code will pass to `int()`). -/
inductive JNum where
  | int (n : Int)
  | str (s : String)
deriving DecidableEq, Repr

/-- Body of the token endpoint's JSON response, restricted to the fields
`_refresh_access_token` reads. -/
structure TokenBody where
  access_token : Option String := none
  refresh_token : Option String := none
  expires_in : Option JNum := none
deriving DecidableEq, Repr

/-- `int(data.get("expires_in") or 0)`: `None`, `0` and `""` are falsy and
yield `0`; a non-empty string goes through `int()`, which raises
`ValueError` (`.error`) when it is not a decimal integer. -/
def expiresInValue : Option JNum → Except Unit Int
  | none => .ok 0
  | some (.int n) => .ok n
  | some (.str s) =>
    if s = "" then .ok 0
    else
      match pyToInt s with
      | some n => .ok n
      | none => .error ()

/-- Outcome of the token-endpoint POST: a network failure (any
`requests.exceptions.RequestException`) or a response with a status code
and a JSON body. -/
inductive HttpResult where
  | netFail : HttpResult
  | resp (status : Nat) (body : TokenBody) : HttpResult
deriving DecidableEq, Repr

/-! ## Home Assistant connector state -/

/-- Mutable fields of `HomeAssistantConnector` set by `__init__` /
`_load_credentials`.  String fields use `""` for Python `None` (the code
only ever tests their truthiness, and `_save_tokens` coalesces with
`or ""`). -/
structure HomeAssistantConnector where
  tenant_id : Option String := none
  base_url : String := ""
  token : String := ""
  access_token : String := ""
  refresh_token : String := ""
  client_id : String := ""
  client_secret : String := ""
  token_url : String := ""
  expires_at : Option Int := none
  configured : Bool := false
deriving DecidableEq, Repr

/-- The `credential_data` record `_save_tokens` writes through
`db.save_credential`. -/
structure SavedTokens where
  base_url : String
  token : String
  access_token : String
  refresh_token : String
  client_id : String
  client_secret : String
  token_url : String
  expires_at : Option Int
deriving DecidableEq, Repr

/-- `HomeAssistantConnector._save_tokens`: returns `none` (no store write)
when `tenant_id` is falsy, otherwise the record saved. -/
def save_tokens (s : HomeAssistantConnector) : Option SavedTokens :=
  if pyTruthy s.tenant_id then
    some
      { base_url := s.base_url
        token := s.token
        access_token := s.access_token
        refresh_token := s.refresh_token
        client_id := s.client_id
        client_secret := s.client_secret
        token_url := s.token_url
        expires_at := s.expires_at }
  else none

/-- Result of one call to `_refresh_access_token`: the connector state
after the call, the record saved to the store (if any), and whether the
POST to the token endpoint was actually issued. -/
structure RefreshOutcome where
  state : HomeAssistantConnector
  save : Option SavedTokens
  posted : Bool
deriving DecidableEq, Repr

/-- `HomeAssistantConnector._refresh_access_token`, with the HTTP outcome
`r` passed explicitly.  `.error ()` is an exception escaping the method
(the only such path: `int()` on a malformed `expires_in`, a `ValueError`
not caught by the `except RequestException` clause). -/
def refresh_access_token (now : Int) (r : HttpResult)
    (s : HomeAssistantConnector) : Except Unit RefreshOutcome :=
  if s.refresh_token = "" then .ok ⟨s, none, false⟩
  else if s.token_url = "" && s.base_url = "" then .ok ⟨s, none, false⟩
  else
    let s1 :=
      if s.token_url = "" then { s with token_url := s.base_url ++ "/auth/token" } else s
    match r with
    | .netFail => .ok ⟨s1, none, true⟩
    | .resp status body =>
      if status ≠ 200 then .ok ⟨s1, none, true⟩
      else
        match expiresInValue body.expires_in with
        | .error e => .error e
        | .ok expires_in =>
          let atok := pyStrip (body.access_token.getD "")
          let rtok := pyStrip (body.refresh_token.getD "")
          let s2 := if atok ≠ "" then { s1 with access_token := atok } else s1
          let s3 := if rtok ≠ "" then { s2 with refresh_token := rtok } else s2
          let s4 :=
            if expires_in ≠ 0 then { s3 with expires_at := some (now + expires_in) } else s3
          .ok ⟨s4, save_tokens s4, true⟩

/-- Result of one call to `_auth_header`: the header value (`none` for the
empty dict), the state afterwards, the store write (if any), whether
`_refresh_access_token` was invoked, and whether a POST went out. -/
structure AuthOutcome where
  header : Option String
  state : HomeAssistantConnector
  save : Option SavedTokens
  called : Bool
  posted : Bool
deriving DecidableEq, Repr

/-- The tail of `_auth_header`: `token = self.token or self.access_token`,
empty dict if falsy, else a `Bearer` header. -/
def bearerOf (s : HomeAssistantConnector) : Option String :=
  let tok := if s.token ≠ "" then s.token else s.access_token
  if tok = "" then none else some ("Bearer " ++ tok)

/-- `HomeAssistantConnector._auth_header` with the token-endpoint outcome
passed explicitly.  The refresh branch is entered iff `expires_at` and
`access_token` are both truthy and `now ≥ expires_at − 60`. -/
def auth_header (now : Int) (r : HttpResult)
    (s : HomeAssistantConnector) : Except Unit AuthOutcome :=
  let stale : Bool :=
    match s.expires_at with
    | some e => e ≠ 0 && s.access_token ≠ "" && now ≥ e - 60
    | none => false
  if stale then
    match refresh_access_token now r s with
    | .error e => .error e
    | .ok o => .ok ⟨bearerOf o.state, o.state, o.save, true, o.posted⟩
  else .ok ⟨bearerOf s, s, none, false, false⟩

/-- `HomeAssistantConnector._validate_configured`. -/
def validate_configured (s : HomeAssistantConnector) : Option String :=
  if s.base_url = "" then some "Home Assistant base_url missing"
  else if s.token = "" && s.access_token = "" && s.refresh_token = "" then
    some "Home Assistant token missing"
  else none

/-- Observable outcome of `list_entities` up to issuing the business HTTP
request (response shaping is an external-service concern). -/
inductive HAListOutcome where
  | failure (error : String)
  | request (url : String) (header : Option String) (state : HomeAssistantConnector)
deriving DecidableEq, Repr

/-- `HomeAssistantConnector.list_entities` up to the outbound GET.  The
`try` block catches only `RequestException`, so an exception raised inside
`self._auth_header()` (a `ValueError` from `int()`) escapes the operation:
modelled as `.error ()`. -/
def list_entities (now : Int) (tokenResp : HttpResult)
    (s : HomeAssistantConnector) : Except Unit HAListOutcome :=
  match validate_configured s with
  | some e => .ok (.failure e)
  | none =>
    match auth_header now tokenResp s with
    | .error e => .error e
    | .ok a => .ok (.request (s.base_url ++ "/api/states") a.header a.state)

/-! ## API-key connectors (FMP, NewsAPI, Gemini) -/

/-- The `credential_data` record of an API-key connector, restricted to
the two keys `_load_credentials` reads (`api_key`, then `key`).  A record
whose keys are all absent models a missing/empty `credential_data` dict
(both are falsy for the purposes of the code). -/
structure ApiKeyData where
  api_key : Option String := none
  key : Option String := none
deriving DecidableEq, Repr

/-- `(data.get("api_key") or data.get("key") or "").strip()` as evaluated
by every API-key connector's `_load_credentials`, extended to a missing
record (result `""`, the same as an empty dict). -/
def storeApiKey : Option ApiKeyData → String
  | some d => pyStrip (pyFirstTruthy d.api_key d.key)
  | none => ""

/-- Resolved state of `FmpConnector` after `_load_credentials`. -/
structure FmpConnector where
  api_key : String
  configured : Bool
deriving DecidableEq, Repr

def fmpMissingMsg : String :=
  "FMP API key missing. Set via credentials API or FMP_API_KEY in dev."

/-- `FmpConnector._load_credentials` as a construction function: the store
record, the strict flag (`config.CREDENTIALS_STRICT`) and the `FMP_API_KEY`
environment value are explicit inputs.  `.error` is the `RuntimeError`
aborting construction.  (The Python code sets `self.api_key` before the
early return; a record whose resolved key strips to `""` falls through to
the strict check exactly as a missing record does, so the two paths are
collapsed behaviour-preservingly.) -/
def FmpConnector.load_credentials (cred : Option ApiKeyData) (strict : Bool)
    (env : String) : Except String FmpConnector :=
  let k := storeApiKey cred
  if k ≠ "" then .ok ⟨k, true⟩
  else if strict then .error fmpMissingMsg
  else
    let e := pyStrip env
    .ok ⟨e, e ≠ ""⟩

def fmpNotConfiguredMsg : String := "FMP connector not configured (missing API key)"

def fmpBaseUrl : String := "https://financialmodelingprep.com/api/v3"

/-- Observable outcome of `FmpConnector.quote` up to issuing the GET. -/
inductive FmpQuoteOutcome where
  | failure (error : String)
  | request (url : String) (apikey : String)
deriving DecidableEq, Repr

/-- `FmpConnector.quote`. -/
def FmpConnector.quote (c : FmpConnector) (symbol : String) : FmpQuoteOutcome :=
  if !c.configured || c.api_key = "" then .failure fmpNotConfiguredMsg
  else if pyStrip symbol = "" then .failure "symbol is required"
  else .request (fmpBaseUrl ++ "/quote/" ++ pyUpper symbol) c.api_key

/-- Observable outcome of `FmpConnector.stock_news` up to issuing the GET;
`limit` is the clamped value put in the query string. -/
inductive FmpNewsOutcome where
  | failure (error : String)
  | request (url : String) (tickers : String) (limit : Int) (apikey : String)
deriving DecidableEq, Repr

/-- `FmpConnector.stock_news`; the wire `limit` is
`max(1, min(50, int(limit or 10)))`. -/
def FmpConnector.stock_news (c : FmpConnector) (tickers : String)
    (limit : Int) : FmpNewsOutcome :=
  if !c.configured || c.api_key = "" then .failure fmpNotConfiguredMsg
  else if pyStrip tickers = "" then .failure "tickers is required"
  else
    .request (fmpBaseUrl ++ "/stock_news") tickers
      (max 1 (min 50 (if limit = 0 then 10 else limit))) c.api_key

/-- The `limit` query parameter of a `stock_news` request, when one is
issued. -/
def FmpNewsOutcome.sentLimit : FmpNewsOutcome → Option Int
  | .failure _ => none
  | .request _ _ l _ => some l

/-- Resolved state of `NewsApiConnector` after `_load_credentials`. -/
structure NewsApiConnector where
  api_key : String
  configured : Bool
deriving DecidableEq, Repr

def newsapiMissingMsg : String :=
  "NewsAPI key missing. Set via credentials API or NEWSAPI_KEY in dev."

/-- `NewsApiConnector._load_credentials` (same shape as FMP's, with the
`NEWSAPI_KEY` environment variable). -/
def NewsApiConnector.load_credentials (cred : Option ApiKeyData) (strict : Bool)
    (env : String) : Except String NewsApiConnector :=
  let k := storeApiKey cred
  if k ≠ "" then .ok ⟨k, true⟩
  else if strict then .error newsapiMissingMsg
  else
    let e := pyStrip env
    .ok ⟨e, e ≠ ""⟩

def newsapiNotConfiguredMsg : String :=
  "NewsAPI connector not configured (missing API key)"

def newsapiBaseUrl : String := "https://newsapi.org/v2"

/-- Observable outcome of `NewsApiConnector.search` up to issuing the GET;
`pageSize` is the clamped value put in the query string. -/
inductive NewsSearchOutcome where
  | failure (error : String)
  | request (url : String) (q : String) (language : String) (sortBy : String)
      (pageSize : Int) (apikey : String)
deriving DecidableEq, Repr

/-- `NewsApiConnector.search`; the wire `pageSize` is
`max(1, min(100, int(page_size or 20)))`. -/
def NewsApiConnector.search (c : NewsApiConnector) (q : String)
    (language : String) (sort_by : String) (page_size : Int) : NewsSearchOutcome :=
  if !c.configured || c.api_key = "" then .failure newsapiNotConfiguredMsg
  else if pyStrip q = "" then .failure "q is required"
  else
    .request (newsapiBaseUrl ++ "/everything") q language sort_by
      (max 1 (min 100 (if page_size = 0 then 20 else page_size))) c.api_key

def NewsSearchOutcome.sentPageSize : NewsSearchOutcome → Option Int
  | .failure _ => none
  | .request _ _ _ _ p _ => some p

/-- Observable outcome of `NewsApiConnector.top_headlines` up to issuing
the GET. -/
inductive NewsHeadlinesOutcome where
  | failure (error : String)
  | request (url : String) (country : String) (pageSize : Int)
      (category : Option String) (q : Option String) (apikey : String)
deriving DecidableEq, Repr

/-- `NewsApiConnector.top_headlines`; `category` and `q` are included in
the params only when truthy; the wire `pageSize` is
`max(1, min(100, int(page_size or 20)))`. -/
def NewsApiConnector.top_headlines (c : NewsApiConnector) (country : String)
    (category : Option String) (q : Option String) (page_size : Int) :
    NewsHeadlinesOutcome :=
  if !c.configured || c.api_key = "" then .failure newsapiNotConfiguredMsg
  else
    .request (newsapiBaseUrl ++ "/top-headlines") country
      (max 1 (min 100 (if page_size = 0 then 20 else page_size)))
      (if pyTruthy category then category else none)
      (if pyTruthy q then q else none) c.api_key

def NewsHeadlinesOutcome.sentPageSize : NewsHeadlinesOutcome → Option Int
  | .failure _ => none
  | .request _ _ p _ _ _ => some p

/-- Resolved state of `GeminiConnector` (only the fields `generate_image`
reads). -/
structure GeminiConnector where
  api_key : String
  configured : Bool
deriving DecidableEq, Repr

def geminiImageUrl : String :=
  "https://generativelanguage.googleapis.com/v1beta/models/imagen-3.0-generate-001:generateImages"

/-- Observable outcome of `GeminiConnector.generate_image` up to issuing
the POST; `sampleCount` is the clamped value put in the payload. -/
inductive GeminiImageOutcome where
  | failure (error : String)
  | request (url : String) (prompt : String) (sampleCount : Int)
      (outputMimeType : String) (apikey : String)
deriving DecidableEq, Repr

/-- `GeminiConnector.generate_image`; the payload `sampleCount` is
`min(4, max(1, int(sample_count or 1)))`. -/
def GeminiConnector.generate_image (c : GeminiConnector) (prompt : String)
    (sample_count : Int) (output_mime_type : String) : GeminiImageOutcome :=
  if !c.configured || c.api_key = "" then
    .failure "Gemini connector not configured (missing API key)"
  else if pyStrip prompt = "" then .failure "prompt is required"
  else
    .request geminiImageUrl prompt
      (min 4 (max 1 (if sample_count = 0 then 1 else sample_count)))
      output_mime_type c.api_key

def GeminiImageOutcome.sentSampleCount : GeminiImageOutcome → Option Int
  | .failure _ => none
  | .request _ _ n _ _ => some n

/-! ## Home Assistant credential loading (for C5) -/

/-- The `credential_data` record read by
`HomeAssistantConnector._load_credentials`.  A record with every field
absent models an empty (falsy) `credential_data` dict; any present field —
even with an empty-string value — makes the dict truthy. -/
structure HACredData where
  base_url : Option String := none
  token : Option String := none
  access_token : Option String := none
  refresh_token : Option String := none
  client_id : Option String := none
  client_secret : Option String := none
  token_url : Option String := none
  expires_at : Option Int := none
deriving DecidableEq, Repr

/-- Truthiness of the `credential_data` dict: some key is present. -/
def HACredData.nonempty (d : HACredData) : Bool :=
  d.base_url.isSome || d.token.isSome || d.access_token.isSome ||
  d.refresh_token.isSome || d.client_id.isSome || d.client_secret.isSome ||
  d.token_url.isSome || d.expires_at.isSome

def haMissingMsg : String :=
  "Home Assistant credentials missing. Set via credentials API or env vars in dev."

/-- `HomeAssistantConnector._load_credentials` as a construction function
(store record, strict flag, `HOME_ASSISTANT_BASE_URL` and
`HOME_ASSISTANT_TOKEN` environment values explicit).  When the record's
`credential_data` is truthy the method populates the fields and returns —
without consulting the strict flag; otherwise strict mode raises
(`.error`), and permissive mode falls back to the environment. -/
def HomeAssistantConnector.load_credentials (cred : Option HACredData)
    (strict : Bool) (envBase envTok : String) (tenant : Option String) :
    Except String HomeAssistantConnector :=
  match cred with
  | some d =>
    if d.nonempty then
      let base0 := pyStrip (d.base_url.getD "")
      let base := if base0 ≠ "" then pyRstripSlash base0 else base0
      let tok := pyStrip (d.token.getD "")
      let atok := pyStrip (d.access_token.getD "")
      let rtok := pyStrip (d.refresh_token.getD "")
      .ok
        { tenant_id := tenant
          base_url := base
          token := tok
          access_token := atok
          refresh_token := rtok
          client_id := pyStrip (d.client_id.getD "")
          client_secret := pyStrip (d.client_secret.getD "")
          token_url := pyStrip (d.token_url.getD "")
          expires_at := d.expires_at
          configured := base ≠ "" && (tok ≠ "" || atok ≠ "" || rtok ≠ "") }
    else if strict then .error haMissingMsg
    else
      let base := pyRstripSlash (pyStrip envBase)
      let tok := pyStrip envTok
      .ok { tenant_id := tenant, base_url := base, token := tok,
            configured := base ≠ "" && tok ≠ "" }
  | none =>
    if strict then .error haMissingMsg
    else
      let base := pyRstripSlash (pyStrip envBase)
      let tok := pyStrip envTok
      .ok { tenant_id := tenant, base_url := base, token := tok,
            configured := base ≠ "" && tok ≠ "" }

/-! ## Shared characterization of the HTTP-200 refresh branch -/

/-- Characterization of `_refresh_access_token` on an HTTP 200 response,
when the refresh is actually attempted (`refresh_token` truthy and a token
URL available) and `int(expires_in or 0)` evaluates without raising. -/
theorem refresh_200_spec (now : Int) (s : HomeAssistantConnector) (body : TokenBody) (ei : Int)
    (hrt : ¬ s.refresh_token = "")
    (hguard : ¬ (s.token_url = "" && s.base_url = "") = true)
    (hei : expiresInValue body.expires_in = .ok ei) :
    refresh_access_token now (.resp 200 body) s =
      (let s1 := if s.token_url = "" then { s with token_url := s.base_url ++ "/auth/token" } else s
       let atok := pyStrip (body.access_token.getD "")
       let rtok := pyStrip (body.refresh_token.getD "")
       let s2 := if atok ≠ "" then { s1 with access_token := atok } else s1
       let s3 := if rtok ≠ "" then { s2 with refresh_token := rtok } else s2
       let s4 := if ei ≠ 0 then { s3 with expires_at := some (now + ei) } else s3
       .ok ⟨s4, save_tokens s4, true⟩) := by
  unfold refresh_access_token
  rw [if_neg hrt, if_neg hguard]
  simp only [hei]
  rfl

/-! ## Claim theorems -/

/-- C1: for every refresh attempt entered by `_refresh_access_token`, if
the token endpoint POST raises a network failure or returns a non-200
status, the token state (`access_token`, `refresh_token`, `expires_at` —
the `token_url` default aside) is left unchanged, nothing is saved to the
credential store, and the call returns without surfacing any error. -/
theorem refresh_failure_leaves_state_unchanged (now : Int) (r : HttpResult)
    (s : HomeAssistantConnector)
    (hfail : r = .netFail ∨ ∀ status body, r = .resp status body → status ≠ 200) :
    (refresh_access_token now r s).map (fun o => o.save) = .ok none ∧
    (refresh_access_token now r s).map (fun o => o.state.access_token) = .ok s.access_token ∧
    (refresh_access_token now r s).map (fun o => o.state.refresh_token) = .ok s.refresh_token ∧
    (refresh_access_token now r s).map (fun o => o.state.expires_at) = .ok s.expires_at := by
  cases r with
  | netFail =>
    unfold refresh_access_token
    by_cases h1 : s.refresh_token = "" <;>
      by_cases h2 : (s.token_url = "" && s.base_url = "") = true <;>
        by_cases hu : s.token_url = "" <;> by_cases hb : s.base_url = "" <;>
          simp [h1, h2, hu, hb, Except.map]
  | resp status body =>
    have hst : status ≠ 200 := by
      rcases hfail with h | h
      · cases h
      · exact h status body rfl
    unfold refresh_access_token
    by_cases h1 : s.refresh_token = "" <;>
      by_cases h2 : (s.token_url = "" && s.base_url = "") = true <;>
        by_cases hu : s.token_url = "" <;> by_cases hb : s.base_url = "" <;>
          simp [h1, h2, hu, hb, hst, Except.map]

/-- C1 witness: concrete instance (network failure, a refresh-capable
state) of `refresh_failure_leaves_state_unchanged`. -/
theorem refresh_failure_leaves_state_unchanged_inst :
    (refresh_access_token 0 .netFail
        { refresh_token := "r1", token_url := "u" }).map (fun o => o.save) = .ok none ∧
    (refresh_access_token 0 .netFail
        { refresh_token := "r1", token_url := "u" }).map (fun o => o.state.access_token) =
      .ok "" ∧
    (refresh_access_token 0 .netFail
        { refresh_token := "r1", token_url := "u" }).map (fun o => o.state.refresh_token) =
      .ok "r1" ∧
    (refresh_access_token 0 .netFail
        { refresh_token := "r1", token_url := "u" }).map (fun o => o.state.expires_at) =
      .ok none :=
  refresh_failure_leaves_state_unchanged 0 .netFail
    { refresh_token := "r1", token_url := "u" } (Or.inl rfl)

/-- C2 counterexample: an HTTP 200 refresh response whose `access_token`
field is absent does NOT leave the token state unchanged, and something IS
persisted: with a rotated `refresh_token` and an `expires_in` in the
response, the state's `refresh_token` becomes `"r2"` (≠ the prior `"r1"`),
`expires_at` becomes `1100` (≠ the prior `500`), and `_save_tokens`
performs a store write (`save = some …`), because the code guards the
`access_token` assignment alone and calls `_save_tokens()` unconditionally
on every 200 response. -/
theorem refresh_missing_access_token_still_persists :
    refresh_access_token 1000
        (.resp 200 { refresh_token := some "r2", expires_in := some (.int 100) })
        { tenant_id := some "t1", base_url := "http://ha", access_token := "a1",
          refresh_token := "r1", token_url := "http://ha/auth/token", expires_at := some 500 } =
      .ok { state := { tenant_id := some "t1", base_url := "http://ha", token := "",
                       access_token := "a1", refresh_token := "r2", client_id := "",
                       client_secret := "", token_url := "http://ha/auth/token",
                       expires_at := some 1100, configured := false },
            save := some { base_url := "http://ha", token := "", access_token := "a1",
                           refresh_token := "r2", client_id := "", client_secret := "",
                           token_url := "http://ha/auth/token", expires_at := some 1100 },
            posted := true } ∧
    ("r2" : String) ≠ "r1" ∧ some (1100 : Int) ≠ some 500 :=
  ⟨rfl, by decide, by decide⟩

/-- C2 (amended): on an attempted refresh answered HTTP 200 with an
absent/empty `access_token`, the state's `access_token` field is left
unchanged, but `refresh_token` is still rotated when the response supplies
one, `expires_at` is still recomputed when the response supplies a nonzero
`expires_in`, and `_save_tokens` is still invoked — persisting a record
exactly when `tenant_id` is truthy. -/
theorem refresh_missing_access_token_updates_rest (now : Int)
    (s : HomeAssistantConnector) (body : TokenBody) (ei : Int)
    (hrt : ¬ s.refresh_token = "")
    (hurl : ¬ (s.token_url = "" ∧ s.base_url = ""))
    (hat : pyStrip (body.access_token.getD "") = "")
    (hei : expiresInValue body.expires_in = .ok ei) :
    (refresh_access_token now (.resp 200 body) s).map (fun o => o.state.access_token) =
      .ok s.access_token ∧
    (refresh_access_token now (.resp 200 body) s).map (fun o => o.state.refresh_token) =
      .ok (if pyStrip (body.refresh_token.getD "") = "" then s.refresh_token
           else pyStrip (body.refresh_token.getD "")) ∧
    (refresh_access_token now (.resp 200 body) s).map (fun o => o.state.expires_at) =
      .ok (if ei = 0 then s.expires_at else some (now + ei)) ∧
    (refresh_access_token now (.resp 200 body) s).map (fun o => o.save.isSome) =
      .ok (pyTruthy s.tenant_id) := by
  have hguard : ¬ (s.token_url = "" && s.base_url = "") = true := by
    simp only [Bool.and_eq_true, decide_eq_true_eq]
    exact hurl
  rw [refresh_200_spec now s body ei hrt hguard hei]
  simp only [hat, ne_eq, not_true_eq_false, if_false, ite_false, Except.map, save_tokens]
  by_cases hu : s.token_url = "" <;>
    by_cases hr : pyStrip (body.refresh_token.getD "") = "" <;>
      by_cases he : ei = 0 <;>
        simp [hu, hr, he, pyTruthy, save_tokens] <;>
          cases ht : s.tenant_id <;> simp [ht] <;> split <;> simp_all

/-- C2 witness: concrete instance of
`refresh_missing_access_token_updates_rest`. -/
theorem refresh_missing_access_token_updates_rest_inst :
    (refresh_access_token 1000
        (.resp 200 { refresh_token := some "r2", expires_in := some (.int 100) })
        { tenant_id := some "t1", base_url := "http://ha", access_token := "a1",
          refresh_token := "r1", token_url := "http://ha/auth/token",
          expires_at := some 500 }).map (fun o => o.state.access_token) = .ok "a1" ∧
    (refresh_access_token 1000
        (.resp 200 { refresh_token := some "r2", expires_in := some (.int 100) })
        { tenant_id := some "t1", base_url := "http://ha", access_token := "a1",
          refresh_token := "r1", token_url := "http://ha/auth/token",
          expires_at := some 500 }).map (fun o => o.state.refresh_token) = .ok "r2" ∧
    (refresh_access_token 1000
        (.resp 200 { refresh_token := some "r2", expires_in := some (.int 100) })
        { tenant_id := some "t1", base_url := "http://ha", access_token := "a1",
          refresh_token := "r1", token_url := "http://ha/auth/token",
          expires_at := some 500 }).map (fun o => o.state.expires_at) = .ok (some 1100) ∧
    (refresh_access_token 1000
        (.resp 200 { refresh_token := some "r2", expires_in := some (.int 100) })
        { tenant_id := some "t1", base_url := "http://ha", access_token := "a1",
          refresh_token := "r1", token_url := "http://ha/auth/token",
          expires_at := some 500 }).map (fun o => o.save.isSome) = .ok true :=
  refresh_missing_access_token_updates_rest 1000
    { tenant_id := some "t1", base_url := "http://ha", access_token := "a1",
      refresh_token := "r1", token_url := "http://ha/auth/token", expires_at := some 500 }
    { refresh_token := some "r2", expires_in := some (.int 100) } 100
    (by decide) (by decide) rfl rfl

/-- C3 counterexample: a fully successful refresh (HTTP 200, non-empty
`access_token`, rotated `refresh_token`, `expires_in` supplied) persists
NOTHING when `tenant_id` is `None`: `_save_tokens` returns before calling
`db.save_credential`, so `save = none` even though the in-memory state was
updated. -/
theorem successful_refresh_no_persist_without_tenant :
    refresh_access_token 1000
        (.resp 200 { access_token := some "a2", refresh_token := some "r2",
                     expires_in := some (.int 100) })
        { tenant_id := none, base_url := "http://ha", access_token := "a1",
          refresh_token := "r1", token_url := "http://ha/auth/token", expires_at := some 500 } =
      .ok { state := { tenant_id := none, base_url := "http://ha", token := "",
                       access_token := "a2", refresh_token := "r2", client_id := "",
                       client_secret := "", token_url := "http://ha/auth/token",
                       expires_at := some 1100, configured := false },
            save := none,
            posted := true } :=
  rfl

/-- C3 (amended): for every successful refresh (HTTP 200 with non-empty
`access_token`) performed with a truthy `tenant_id`, the record persisted
through the credential store carries the refreshed `access_token`, the
rotated `refresh_token` when the response supplied one (the prior value
otherwise), and `expires_at = now + expires_in` when the response supplied
a nonzero `expires_in` (the prior `expires_at` otherwise). -/
theorem successful_refresh_persists_with_tenant (now : Int)
    (s : HomeAssistantConnector) (body : TokenBody) (ei : Int)
    (hrt : ¬ s.refresh_token = "")
    (hurl : ¬ (s.token_url = "" ∧ s.base_url = ""))
    (hat : ¬ pyStrip (body.access_token.getD "") = "")
    (hei : expiresInValue body.expires_in = .ok ei)
    (hten : pyTruthy s.tenant_id = true) :
    (refresh_access_token now (.resp 200 body) s).map
        (fun o => o.save.map (fun rec => rec.access_token)) =
      .ok (some (pyStrip (body.access_token.getD ""))) ∧
    (refresh_access_token now (.resp 200 body) s).map
        (fun o => o.save.map (fun rec => rec.refresh_token)) =
      .ok (some (if pyStrip (body.refresh_token.getD "") = "" then s.refresh_token
                 else pyStrip (body.refresh_token.getD ""))) ∧
    (refresh_access_token now (.resp 200 body) s).map
        (fun o => o.save.map (fun rec => rec.expires_at)) =
      .ok (some (if ei = 0 then s.expires_at else some (now + ei))) := by
  have hguard : ¬ (s.token_url = "" && s.base_url = "") = true := by
    simp only [Bool.and_eq_true, decide_eq_true_eq]
    exact hurl
  rw [refresh_200_spec now s body ei hrt hguard hei]
  by_cases hu : s.token_url = "" <;>
    by_cases hr : pyStrip (body.refresh_token.getD "") = "" <;>
      by_cases he : ei = 0 <;>
        simp [hu, hr, he, hat, pyTruthy, save_tokens, Except.map] <;>
          cases ht : s.tenant_id <;> simp_all [pyTruthy]

/-- C3 witness: concrete instance of
`successful_refresh_persists_with_tenant`. -/
theorem successful_refresh_persists_with_tenant_inst :
    (refresh_access_token 1000
        (.resp 200 { access_token := some "a2", refresh_token := some "r2",
                     expires_in := some (.int 100) })
        { tenant_id := some "t1", base_url := "http://ha", access_token := "a1",
          refresh_token := "r1", token_url := "http://ha/auth/token",
          expires_at := some 500 }).map
      (fun o => o.save.map (fun rec => rec.access_token)) = .ok (some "a2") ∧
    (refresh_access_token 1000
        (.resp 200 { access_token := some "a2", refresh_token := some "r2",
                     expires_in := some (.int 100) })
        { tenant_id := some "t1", base_url := "http://ha", access_token := "a1",
          refresh_token := "r1", token_url := "http://ha/auth/token",
          expires_at := some 500 }).map
      (fun o => o.save.map (fun rec => rec.refresh_token)) = .ok (some "r2") ∧
    (refresh_access_token 1000
        (.resp 200 { access_token := some "a2", refresh_token := some "r2",
                     expires_in := some (.int 100) })
        { tenant_id := some "t1", base_url := "http://ha", access_token := "a1",
          refresh_token := "r1", token_url := "http://ha/auth/token",
          expires_at := some 500 }).map
      (fun o => o.save.map (fun rec => rec.expires_at)) = .ok (some (some 1100)) :=
  successful_refresh_persists_with_tenant 1000
    { tenant_id := some "t1", base_url := "http://ha", access_token := "a1",
      refresh_token := "r1", token_url := "http://ha/auth/token", expires_at := some 500 }
    { access_token := some "a2", refresh_token := some "r2", expires_in := some (.int 100) }
    100 (by decide) (by decide) (by decide) rfl rfl

/-- C4 counterexample: a state that is Stale in the claim's sense —
`now = expires_at` (well inside the 60-second margin) and a
`refresh_token` present — on which `_auth_header` performs NO refresh
attempt (`called = false`), because the code's guard additionally requires
`access_token` to be truthy and here it is empty. -/
theorem stale_without_access_token_skips_refresh :
    auth_header 1000 .netFail
        { base_url := "http://ha", refresh_token := "r1", token_url := "u",
          expires_at := some 1000 } =
      .ok { header := none,
            state := { tenant_id := none, base_url := "http://ha", token := "",
                       access_token := "", refresh_token := "r1", client_id := "",
                       client_secret := "", token_url := "u", expires_at := some 1000,
                       configured := false },
            save := none, called := false, posted := false } ∧
    (1000 : Int) ≥ 1000 - 60 ∧ ("r1" : String) ≠ "" :=
  ⟨rfl, by decide, by decide⟩

/-- C4 (amended): `_auth_header` invokes `_refresh_access_token` exactly
when `expires_at` is set and nonzero, `access_token` is non-empty, and
`now ≥ expires_at − 60`; when `expires_at` is unset, zero, or the token is
still fresh (`now < expires_at − 60`), it performs zero refresh calls and
immediately returns the Bearer header of `token or access_token` (the
empty header when both are empty), with state untouched and nothing
saved. -/
theorem auth_header_refresh_trigger :
    (∀ (now : Int) (r : HttpResult) (s : HomeAssistantConnector) (e : Int),
      s.expires_at = some e → e ≠ 0 → s.access_token ≠ "" → now ≥ e - 60 →
      auth_header now r s = .error () ∨
        (auth_header now r s).map (fun o => o.called) = .ok true) ∧
    (∀ (now : Int) (r : HttpResult) (s : HomeAssistantConnector),
      (s.expires_at = none ∨ s.expires_at = some 0 ∨
        (∀ e, s.expires_at = some e → now < e - 60)) →
      auth_header now r s = .ok ⟨bearerOf s, s, none, false, false⟩) := by
  constructor
  · intro now r s e he he0 hat hnow
    unfold auth_header
    simp only [he]
    rw [if_pos (by simp [he0, hat, hnow])]
    cases hres : refresh_access_token now r s with
    | error u => left; cases u; rfl
    | ok o => right; simp [hres, Except.map]
  · intro now r s hfresh
    unfold auth_header
    rw [if_neg ?hcond]
    case hcond =>
      rcases hfresh with h | h | h
      · simp [h]
      · simp [h]
      · cases hs : s.expires_at with
        | none => simp
        | some e =>
          have hlt := h e hs
          simp only [Bool.and_eq_true, decide_eq_true_eq, not_and]
          intro _ _
          omega

/-- C4 witness: both parts of `auth_header_refresh_trigger` at concrete
inputs — a stale state with a non-empty `access_token` does trigger the
refresh, and a state without `expires_at` returns its Bearer header with
zero refresh calls. -/
theorem auth_header_refresh_trigger_inst :
    (auth_header 100 (.resp 500 {})
        { access_token := "a1", refresh_token := "r1", token_url := "u",
          expires_at := some 100 } = .error () ∨
      (auth_header 100 (.resp 500 {})
          { access_token := "a1", refresh_token := "r1", token_url := "u",
            expires_at := some 100 }).map (fun o => o.called) = .ok true) ∧
    auth_header 0 .netFail { token := "tk" } =
      .ok { header := some "Bearer tk",
            state := { token := "tk" }, save := none, called := false, posted := false } :=
  ⟨auth_header_refresh_trigger.1 100 (.resp 500 {})
      { access_token := "a1", refresh_token := "r1", token_url := "u",
        expires_at := some 100 } 100 rfl (by decide) (by decide) (by decide),
   auth_header_refresh_trigger.2 0 .netFail { token := "tk" } (Or.inl rfl)⟩

/-- C5 counterexample: in Strict mode, a Home Assistant store record whose
`credential_data` dict is non-empty but unusable (here, only an empty
`base_url`) does NOT abort construction: `_load_credentials` returns
normally with `configured = false` instead of raising. -/
theorem strict_mode_unusable_record_not_fatal :
    HomeAssistantConnector.load_credentials (some { base_url := some "" }) true "e1" "e2" none =
      .ok { tenant_id := none, base_url := "", token := "", access_token := "",
            refresh_token := "", client_id := "", client_secret := "", token_url := "",
            expires_at := none, configured := false } :=
  rfl

/-- C5 (amended): in Strict mode, construction fails with a fatal error
whose message identifies the tool, and without consulting the environment
(the result is the same for every environment value), whenever the store
yields no usable key for FMP (no record, or a record whose resolved
`api_key`/`key` strips to empty) — and for Home Assistant whenever the
store yields no record or one with an empty `credential_data` dict
(a non-empty but unusable record is accepted without error, per the
counterexample). -/
theorem strict_mode_missing_record_fatal :
    (∀ (cred : Option ApiKeyData) (env : String), storeApiKey cred = "" →
      FmpConnector.load_credentials cred true env = .error fmpMissingMsg) ∧
    fmpMissingMsg.data.take 3 = "FMP".data ∧
    (∀ (envBase envTok : String) (tenant : Option String),
      HomeAssistantConnector.load_credentials none true envBase envTok tenant =
        .error haMissingMsg) ∧
    (∀ (d : HACredData) (envBase envTok : String) (tenant : Option String),
      d.nonempty = false →
      HomeAssistantConnector.load_credentials (some d) true envBase envTok tenant =
        .error haMissingMsg) ∧
    haMissingMsg.data.take 14 = "Home Assistant".data := by
  refine ⟨?_, by decide, ?_, ?_, by decide⟩
  · intro cred env h
    unfold FmpConnector.load_credentials
    simp [h]
  · intro envBase envTok tenant
    rfl
  · intro d envBase envTok tenant h
    unfold HomeAssistantConnector.load_credentials
    simp [h]

/-- C5 witness: concrete instances of `strict_mode_missing_record_fatal`
(a populated environment value on the FMP side, showing it is not
consulted). -/
theorem strict_mode_missing_record_fatal_inst :
    FmpConnector.load_credentials none true "some-env-key" = .error fmpMissingMsg ∧
    HomeAssistantConnector.load_credentials none true "eb" "et" (some "tenant1") =
      .error haMissingMsg ∧
    HomeAssistantConnector.load_credentials (some {}) true "eb" "et" none =
      .error haMissingMsg :=
  ⟨strict_mode_missing_record_fatal.1 none "some-env-key" rfl,
   strict_mode_missing_record_fatal.2.2.1 "eb" "et" (some "tenant1"),
   strict_mode_missing_record_fatal.2.2.2.1 {} "eb" "et" none rfl⟩

/-- C6: in Permissive mode, with no usable store record and an
empty/whitespace environment value, construction succeeds with
`configured = false`, and every business operation of the FMP and NewsAPI
connectors returns the not-configured failure envelope (no exception, no
request issued) for every argument. -/
theorem permissive_unconfigured_envelope (credF credN : Option ApiKeyData)
    (envF envN : String)
    (sym t q lang srt country : String) (cat qh : Option String) (l ps ps2 : Int)
    (hF : storeApiKey credF = "") (hEF : pyStrip envF = "")
    (hN : storeApiKey credN = "") (hEN : pyStrip envN = "") :
    FmpConnector.load_credentials credF false envF =
      .ok { api_key := "", configured := false } ∧
    (FmpConnector.load_credentials credF false envF).map (fun c => c.quote sym) =
      .ok (.failure fmpNotConfiguredMsg) ∧
    (FmpConnector.load_credentials credF false envF).map (fun c => c.stock_news t l) =
      .ok (.failure fmpNotConfiguredMsg) ∧
    NewsApiConnector.load_credentials credN false envN =
      .ok { api_key := "", configured := false } ∧
    (NewsApiConnector.load_credentials credN false envN).map
        (fun c => c.search q lang srt ps) =
      .ok (.failure newsapiNotConfiguredMsg) ∧
    (NewsApiConnector.load_credentials credN false envN).map
        (fun c => c.top_headlines country cat qh ps2) =
      .ok (.failure newsapiNotConfiguredMsg) := by
  have h1 : FmpConnector.load_credentials credF false envF =
      .ok { api_key := "", configured := false } := by
    unfold FmpConnector.load_credentials
    simp [hF, hEF]
  have h2 : NewsApiConnector.load_credentials credN false envN =
      .ok { api_key := "", configured := false } := by
    unfold NewsApiConnector.load_credentials
    simp [hN, hEN]
  refine ⟨h1, ?_, ?_, h2, ?_, ?_⟩ <;>
    simp [h1, h2, Except.map, FmpConnector.quote, FmpConnector.stock_news,
      NewsApiConnector.search, NewsApiConnector.top_headlines]

/-- C6 witness: concrete instance of `permissive_unconfigured_envelope`
(no FMP record and a whitespace environment key; a NewsAPI record whose
key strips to empty and an empty environment). -/
theorem permissive_unconfigured_envelope_inst :
    FmpConnector.load_credentials none false "  " =
      .ok { api_key := "", configured := false } ∧
    (FmpConnector.load_credentials none false "  ").map (fun c => c.quote "MSFT") =
      .ok (.failure fmpNotConfiguredMsg) ∧
    (FmpConnector.load_credentials none false "  ").map (fun c => c.stock_news "MSFT" 5) =
      .ok (.failure fmpNotConfiguredMsg) ∧
    NewsApiConnector.load_credentials (some { key := some "  " }) false "" =
      .ok { api_key := "", configured := false } ∧
    (NewsApiConnector.load_credentials (some { key := some "  " }) false "").map
        (fun c => c.search "ai" "en" "publishedAt" 20) =
      .ok (.failure newsapiNotConfiguredMsg) ∧
    (NewsApiConnector.load_credentials (some { key := some "  " }) false "").map
        (fun c => c.top_headlines "us" none none 20) =
      .ok (.failure newsapiNotConfiguredMsg) :=
  permissive_unconfigured_envelope none (some { key := some "  " }) "  " "" "MSFT" "MSFT"
    "ai" "en" "publishedAt" "us" none none 5 20 20 rfl rfl rfl rfl

/-- C7: the claimed no-exception-escapes property FAILS on the code: when
a `list_entities` call finds a stale token and the token endpoint answers
HTTP 200 with a non-integer `expires_in` (here the string `"soon"`),
`int(data.get("expires_in") or 0)` raises `ValueError`, which the
`except RequestException` clauses in `_refresh_access_token` and
`list_entities` do not catch — the exception escapes the business
operation (`.error ()`), so no result envelope is returned. -/
theorem malformed_expires_in_exception_escapes :
    list_entities 1000
      (.resp 200 { access_token := some "tok2", expires_in := some (.str "soon") })
      { tenant_id := some "t", base_url := "http://ha", access_token := "a1",
        refresh_token := "r1", token_url := "http://ha/auth/token",
        expires_at := some 1000 } = .error () :=
  rfl

/-- C9: the end-to-end scenario — a store record with
`api_key = "  secret123  "` resolves to the trimmed key with
`configured = true` (in either mode), and a `quote` call with an empty
symbol returns the `"symbol is required"` failure envelope without
issuing any network request. -/
theorem fmp_trim_and_empty_symbol_scenario :
    FmpConnector.load_credentials (some { api_key := some "  secret123  " }) false "" =
      .ok { api_key := "secret123", configured := true } ∧
    FmpConnector.load_credentials (some { api_key := some "  secret123  " }) true "" =
      .ok { api_key := "secret123", configured := true } ∧
    FmpConnector.quote { api_key := "secret123", configured := true } "" =
      .failure "symbol is required" :=
  ⟨rfl, rfl, rfl⟩

/-- C10: whenever a count-carrying request is issued, the wire value is
clamped — `stock_news`'s `limit` to `[1, 50]`, `search`'s and
`top_headlines`'s `pageSize` to `[1, 100]`, `generate_image`'s
`sampleCount` to `[1, 4]` — and a falsy (zero) input is first replaced by
the documented default (10, 20, 20, 1 respectively). -/
theorem count_parameters_clamped
    (fc : FmpConnector) (nc : NewsApiConnector) (gc : GeminiConnector)
    (t : String) (l : Int) (q lang srt : String) (ps : Int)
    (country : String) (cat qh : Option String) (ps2 : Int)
    (prompt mime : String) (sc : Int) (v1 v2 v3 v4 : Int)
    (h1 : (fc.stock_news t l).sentLimit = some v1)
    (h2 : (nc.search q lang srt ps).sentPageSize = some v2)
    (h3 : (nc.top_headlines country cat qh ps2).sentPageSize = some v3)
    (h4 : (gc.generate_image prompt sc mime).sentSampleCount = some v4) :
    (1 ≤ v1 ∧ v1 ≤ 50 ∧ (l = 0 → v1 = 10)) ∧
    (1 ≤ v2 ∧ v2 ≤ 100 ∧ (ps = 0 → v2 = 20)) ∧
    (1 ≤ v3 ∧ v3 ≤ 100 ∧ (ps2 = 0 → v3 = 20)) ∧
    (1 ≤ v4 ∧ v4 ≤ 4 ∧ (sc = 0 → v4 = 1)) := by
  have g1 : v1 = max 1 (min 50 (if l = 0 then 10 else l)) := by
    unfold FmpConnector.stock_news at h1
    split at h1
    · simp [FmpNewsOutcome.sentLimit] at h1
    · split at h1
      · simp [FmpNewsOutcome.sentLimit] at h1
      · simp only [FmpNewsOutcome.sentLimit, Option.some.injEq] at h1
        exact h1.symm
  have g2 : v2 = max 1 (min 100 (if ps = 0 then 20 else ps)) := by
    unfold NewsApiConnector.search at h2
    split at h2
    · simp [NewsSearchOutcome.sentPageSize] at h2
    · split at h2
      · simp [NewsSearchOutcome.sentPageSize] at h2
      · simp only [NewsSearchOutcome.sentPageSize, Option.some.injEq] at h2
        exact h2.symm
  have g3 : v3 = max 1 (min 100 (if ps2 = 0 then 20 else ps2)) := by
    unfold NewsApiConnector.top_headlines at h3
    split at h3
    · simp [NewsHeadlinesOutcome.sentPageSize] at h3
    · simp only [NewsHeadlinesOutcome.sentPageSize, Option.some.injEq] at h3
      exact h3.symm
  have g4 : v4 = min 4 (max 1 (if sc = 0 then 1 else sc)) := by
    unfold GeminiConnector.generate_image at h4
    split at h4
    · simp [GeminiImageOutcome.sentSampleCount] at h4
    · split at h4
      · simp [GeminiImageOutcome.sentSampleCount] at h4
      · simp only [GeminiImageOutcome.sentSampleCount, Option.some.injEq] at h4
        exact h4.symm
  refine ⟨⟨?_, ?_, ?_⟩, ⟨?_, ?_, ?_⟩, ⟨?_, ?_, ?_⟩, ⟨?_, ?_, ?_⟩⟩
  · by_cases hc : l = 0 <;> simp [hc] at g1 <;> omega
  · by_cases hc : l = 0 <;> simp [hc] at g1 <;> omega
  · intro h0; simp [h0] at g1; omega
  · by_cases hc : ps = 0 <;> simp [hc] at g2 <;> omega
  · by_cases hc : ps = 0 <;> simp [hc] at g2 <;> omega
  · intro h0; simp [h0] at g2; omega
  · by_cases hc : ps2 = 0 <;> simp [hc] at g3 <;> omega
  · by_cases hc : ps2 = 0 <;> simp [hc] at g3 <;> omega
  · intro h0; simp [h0] at g3; omega
  · by_cases hc : sc = 0 <;> simp [hc] at g4 <;> omega
  · by_cases hc : sc = 0 <;> simp [hc] at g4 <;> omega
  · intro h0; simp [h0] at g4; omega

/-- C10 witness: `count_parameters_clamped` applied with all four
operations issuing requests — an over-limit `stock_news` limit of 999
(sent as 50), a falsy `search` page size of 0 (sent as the default 20), a
negative `top_headlines` page size of −3 (sent as 1), and an over-limit
`generate_image` sample count of 9 (sent as 4). -/
theorem count_parameters_clamped_inst :
    ((1 : Int) ≤ 50 ∧ (50 : Int) ≤ 50) ∧ ((1 : Int) ≤ 20 ∧ (20 : Int) ≤ 100) ∧
    ((1 : Int) ≤ 1 ∧ (1 : Int) ≤ 100) ∧ ((1 : Int) ≤ 4 ∧ (4 : Int) ≤ 4) := by
  have h := count_parameters_clamped ⟨"k", true⟩ ⟨"k", true⟩ ⟨"k", true⟩ "AAPL" 999
    "ai" "en" "publishedAt" 0 "us" none none (-3) "a cat" "image/png" 9 50 20 1 4
    rfl rfl (by decide) (by decide)
  exact ⟨⟨h.1.1, h.1.2.1⟩, ⟨h.2.1.1, h.2.1.2.1⟩, ⟨h.2.2.1.1, h.2.2.1.2.1⟩,
    ⟨h.2.2.2.1, h.2.2.2.2.1⟩⟩

end Governance
